import Mathlib

/-!
Shallow embedding of the alertiris alert-lifecycle reconciler
(`src/main.go`) and of the IRIS HTTP client's error handling
(`src/unnamed/part_000`).

Go maps of strings are embedded as association lists; the BadgerDB
fingerprint index is an association list threaded through the handler
functions; the remote IRIS API and the possibility of database I/O
faults are oracles passed in explicitly.  Each reconciliation step
records the list of remote calls it issued, the resulting index and the
error it returned, mirroring the Go control flow statement by statement.
-/

namespace Alertiris

/-- Go map indexing with the ok flag: first binding of the key, if any. -/
def lookupAssoc {α : Type} : List (String × α) → String → Option α
  | [], _ => none
  | (k, v) :: rest, key => if k = key then some v else lookupAssoc rest key

/-- Go map indexing without the ok flag: the zero value "" when the key is absent. -/
def lookupD (m : List (String × String)) (key : String) : String :=
  (lookupAssoc m key).getD ""

/-- BadgerDB `txn.Set`: bind the key, overwriting an existing binding. -/
def setAssoc : List (String × Int) → String → Int → List (String × Int)
  | [], key, v => [(key, v)]
  | (k, w) :: rest, key, v =>
      if k = key then (key, v) :: rest else (k, w) :: setAssoc rest key v

/-- BadgerDB `txn.Delete`: drop every binding of the key. -/
def delAssoc (m : List (String × Int)) (key : String) : List (String × Int) :=
  m.filter (fun p => p.1 != key)

/-- `Alert` from src/main.go: one Alertmanager alert. -/
structure Alert where
  status : String
  labels : List (String × String)
  annotations : List (String × String)
  startsAt : String
  endsAt : String
  generatorURL : String
  fingerprint : String
deriving DecidableEq

/-- `AlertConfig` from src/main.go. -/
structure AlertConfig where
  source : String
  customerID : Int
  classificationID : Int
  statusIDNew : Int
  statusIDResolved : Int
  resolvedAction : String
  defaultSeverityID : Int
  severityMap : List (String × Int)
deriving DecidableEq

/-- `severityID` from src/main.go: the severity label's entry in the
configured severity map, else the configured default. -/
def severityID (cfg : AlertConfig) (alert : Alert) : Int :=
  match lookupAssoc alert.labels "severity" with
  | some sev =>
      match lookupAssoc cfg.severityMap sev with
      | some id => id
      | none => cfg.defaultSeverityID
  | none => cfg.defaultSeverityID

/-- The `add` closure of `alertDescription` in src/main.go: append
"key: val" unless the value is empty. -/
def descAdd (lines : List String) (key val : String) : List String :=
  if val = "" then lines else lines ++ [key ++ ": " ++ val]

/-- `alertDescription` from src/main.go: the thirteen `add` calls, joined
by newlines. -/
def alertDescription (alert : Alert) : String :=
  let l0 : List String := []
  let l1 := descAdd l0 "Alert" (lookupD alert.labels "alertname")
  let l2 := descAdd l1 "Severity" (lookupD alert.labels "severity")
  let l3 := descAdd l2 "Description" (lookupD alert.annotations "description")
  let l4 := descAdd l3 "Summary" (lookupD alert.annotations "summary")
  let l5 := descAdd l4 "Hostname" (lookupD alert.labels "hostname")
  let l6 := descAdd l5 "Instance" (lookupD alert.labels "instance_name")
  let l7 := descAdd l6 "Service" (lookupD alert.labels "service")
  let l8 := descAdd l7 "Group" (lookupD alert.labels "group")
  let l9 := descAdd l8 "Tier" (lookupD alert.labels "tier")
  let l10 := descAdd l9 "Load" (lookupD alert.annotations "load")
  let l11 := descAdd l10 "Started At" alert.startsAt
  let l12 := descAdd l11 "Fingerprint" alert.fingerprint
  let l13 := descAdd l12 "Generator URL" alert.generatorURL
  String.intercalate "\n" l13

/-- The recognized fields of the description in their fixed order, as the
spec lists them (label prefix paired with the field's value). -/
def descFields (alert : Alert) : List (String × String) :=
  [("Alert", lookupD alert.labels "alertname"),
   ("Severity", lookupD alert.labels "severity"),
   ("Description", lookupD alert.annotations "description"),
   ("Summary", lookupD alert.annotations "summary"),
   ("Hostname", lookupD alert.labels "hostname"),
   ("Instance", lookupD alert.labels "instance_name"),
   ("Service", lookupD alert.labels "service"),
   ("Group", lookupD alert.labels "group"),
   ("Tier", lookupD alert.labels "tier"),
   ("Load", lookupD alert.annotations "load"),
   ("Started At", alert.startsAt),
   ("Fingerprint", alert.fingerprint),
   ("Generator URL", alert.generatorURL)]

/-- The spec's reading of `descriptionFor`: one "label: value" line per
recognized field whose value is non-empty, in the fixed order, joined by
newlines. -/
def descriptionSpec (alert : Alert) : String :=
  String.intercalate "\n"
    (((descFields alert).filter (fun p => p.2 != "")).map (fun p => p.1 ++ ": " ++ p.2))

/-- `IRISAlertRequest` as filled in by `createAlert` in src/main.go.  The
`alert_source_content` blob (`json.Marshal(alert)`) is kept as the alert
value itself; `ClassificationID` and `Note` are left at their Go zero
values because `createAlert` never sets them. -/
structure IRISAlertRequest where
  title : String
  description : String
  source : String
  sourceRef : String
  sourceLink : String
  sourceEventTime : String
  sourceContent : Alert
  severityID : Int
  statusID : Int
  customerID : Int
  classificationID : Int
  note : String
  tags : String
deriving DecidableEq

/-- `IRISAlertUpdateRequest` from the client source: every field optional,
omitted when `none` (Go pointer fields with `omitempty`). -/
structure IRISAlertUpdateRequest where
  title : Option String := none
  description : Option String := none
  source : Option String := none
  sourceRef : Option String := none
  sourceLink : Option String := none
  sourceEventTime : Option String := none
  sourceContent : Option Alert := none
  severityID : Option Int := none
  statusID : Option Int := none
  customerID : Option Int := none
  classificationID : Option Int := none
  tags : Option String := none
deriving DecidableEq

/-- One remote IRIS call, as issued by the handler. -/
inductive RemoteCall where
  | create (req : IRISAlertRequest)
  | update (id : Int) (req : IRISAlertUpdateRequest)
  | delete (id : Int)
deriving DecidableEq

/-- Oracle for the remote IRIS API: the outcome of each call the handler
could make (`CreateAlert` yields the new case ID). -/
structure IRISOracle where
  createResult : IRISAlertRequest → Except String Int
  updateResult : Int → IRISAlertUpdateRequest → Except String Unit
  deleteResult : Int → Except String Unit

/-- Oracle for BadgerDB I/O faults: whether a lookup fails with an error
other than `ErrKeyNotFound`, and whether a store or delete transaction
fails (a failed transaction is discarded, so it mutates nothing). -/
structure DBOracle where
  lookupFault : String → Bool
  storeFault : String → Int → Bool
  deleteFault : String → Bool

/-- The fingerprint index: the BadgerDB keyspace `fp:<fingerprint> ↦
decimal case ID`, whose decimal encoding round-trips exactly. -/
def Index := List (String × Int)

/-- `getAlertID` of src/main.go without the fault case: `some id` when the
fingerprint is bound, `none` for `ErrKeyNotFound`. -/
def getAlertID (idx : Index) (fp : String) : Option Int :=
  lookupAssoc idx fp

/-- What one reconciliation step produced: the remote calls it issued in
order, the resulting index, and the error it returned, if any. -/
structure StepResult where
  calls : List RemoteCall
  index : Index
  err : Option String

/-- The request `createAlert` in src/main.go builds. -/
def mkCreateRequest (cfg : AlertConfig) (alert : Alert) : IRISAlertRequest :=
  { title := lookupD alert.labels "alertname"
    description := alertDescription alert
    source := cfg.source
    sourceRef := alert.fingerprint
    sourceLink := alert.generatorURL
    sourceEventTime := alert.startsAt
    sourceContent := alert
    severityID := severityID cfg alert
    statusID := cfg.statusIDNew
    customerID := cfg.customerID
    classificationID := 0
    note := ""
    tags := lookupD alert.labels "alertname" }

/-- The request `updateAlert` in src/main.go builds. -/
def mkUpdateRequest (cfg : AlertConfig) (alert : Alert) : IRISAlertUpdateRequest :=
  { description := some (alertDescription alert)
    sourceEventTime := some alert.startsAt
    sourceContent := some alert
    severityID := some (severityID cfg alert)
    tags := some (lookupD alert.labels "alertname") }

/-- The status-only request `resolveAlert` in src/main.go builds. -/
def mkResolveRequest (cfg : AlertConfig) : IRISAlertUpdateRequest :=
  { statusID := some cfg.statusIDResolved }

/-- `createAlert` from src/main.go: issue the remote create; on success
store the returned case ID under the fingerprint; a failed store leaves
the index untouched and returns the error. -/
def createAlert (o : IRISOracle) (dbo : DBOracle) (cfg : AlertConfig)
    (idx : Index) (alert : Alert) : StepResult :=
  let req := mkCreateRequest cfg alert
  match o.createResult req with
  | Except.error e => ⟨[RemoteCall.create req], idx, some ("create iris alert: " ++ e)⟩
  | Except.ok alertID =>
      if dbo.storeFault alert.fingerprint alertID then
        ⟨[RemoteCall.create req], idx, some "store alert mapping"⟩
      else
        ⟨[RemoteCall.create req], setAssoc idx alert.fingerprint alertID, none⟩

/-- `updateAlert` from src/main.go: issue the remote partial update of the
stored case; the index is not touched. -/
def updateAlert (o : IRISOracle) (cfg : AlertConfig)
    (idx : Index) (alertID : Int) (alert : Alert) : StepResult :=
  let req := mkUpdateRequest cfg alert
  match o.updateResult alertID req with
  | Except.error e => ⟨[RemoteCall.update alertID req], idx, some ("update iris alert: " ++ e)⟩
  | Except.ok _ => ⟨[RemoteCall.update alertID req], idx, none⟩

/-- `resolveAlert` from src/main.go: when the configured action is
"delete", delete the remote case, otherwise update its status to the
configured resolved status; on success drop the fingerprint's index
entry. -/
def resolveAlert (o : IRISOracle) (dbo : DBOracle) (cfg : AlertConfig)
    (idx : Index) (alertID : Int) (alert : Alert) : StepResult :=
  if cfg.resolvedAction = "delete" then
    match o.deleteResult alertID with
    | Except.error e => ⟨[RemoteCall.delete alertID], idx, some ("delete iris alert: " ++ e)⟩
    | Except.ok _ =>
        if dbo.deleteFault alert.fingerprint then
          ⟨[RemoteCall.delete alertID], idx, some "delete alert mapping"⟩
        else
          ⟨[RemoteCall.delete alertID], delAssoc idx alert.fingerprint, none⟩
  else
    match o.updateResult alertID (mkResolveRequest cfg) with
    | Except.error e =>
        ⟨[RemoteCall.update alertID (mkResolveRequest cfg)], idx,
          some ("resolve iris alert: " ++ e)⟩
    | Except.ok _ =>
        if dbo.deleteFault alert.fingerprint then
          ⟨[RemoteCall.update alertID (mkResolveRequest cfg)], idx, some "delete alert mapping"⟩
        else
          ⟨[RemoteCall.update alertID (mkResolveRequest cfg)],
            delAssoc idx alert.fingerprint, none⟩

/-- `processAlert` from src/main.go: look the fingerprint up (a lookup
fault other than key-not-found aborts), then branch on the alert status
and on whether the fingerprint is tracked; unknown statuses and resolved
notifications for untracked fingerprints are logged no-ops. -/
def processAlert (o : IRISOracle) (dbo : DBOracle) (cfg : AlertConfig)
    (idx : Index) (alert : Alert) : StepResult :=
  if dbo.lookupFault alert.fingerprint then
    ⟨[], idx, some "db lookup"⟩
  else if alert.status = "firing" then
    match getAlertID idx alert.fingerprint with
    | some existingID => updateAlert o cfg idx existingID alert
    | none => createAlert o dbo cfg idx alert
  else if alert.status = "resolved" then
    match getAlertID idx alert.fingerprint with
    | some existingID => resolveAlert o dbo cfg idx existingID alert
    | none => ⟨[], idx, none⟩
  else
    ⟨[], idx, none⟩

/-- `AlertmanagerPayload` from src/main.go. -/
structure AlertmanagerPayload where
  receiver : String
  status : String
  alerts : List Alert
  groupLabels : List (String × String)
  commonLabels : List (String × String)
  commonAnnotations : List (String × String)
  externalURL : String
  version : String
  groupKey : String
  truncatedAlerts : Int

/-- What one webhook request produced: all remote calls in order, the
final index, and the per-alert errors that were logged, keyed by
fingerprint. -/
structure BatchResult where
  calls : List RemoteCall
  index : Index
  errors : List (String × String)

/-- The loop of `HandleWebhook` in src/main.go: process each alert of the
batch in order, logging a failure and continuing with the next alert. -/
def handleAlerts (o : IRISOracle) (dbo : DBOracle) (cfg : AlertConfig) :
    Index → List Alert → BatchResult
  | idx, [] => ⟨[], idx, []⟩
  | idx, alert :: rest =>
      let r := processAlert o dbo cfg idx alert
      let tail := handleAlerts o dbo cfg r.index rest
      ⟨r.calls ++ tail.calls, tail.index,
        (match r.err with
         | some e => [(alert.fingerprint, e)]
         | none => []) ++ tail.errors⟩

/-- `HandleWebhook` from src/main.go: 405 on a non-POST method, 400 when
the payload fails to decode (`none`), otherwise process every alert and
answer 200.  Returns the HTTP status with the batch outcome. -/
def handleWebhook (o : IRISOracle) (dbo : DBOracle) (cfg : AlertConfig)
    (idx : Index) (method : String) (decoded : Option AlertmanagerPayload) :
    Nat × BatchResult :=
  if method ≠ "POST" then
    (405, ⟨[], idx, []⟩)
  else
    match decoded with
    | none => (400, ⟨[], idx, []⟩)
    | some payload => (200, handleAlerts o dbo cfg idx payload.alerts)

/-- `IRISResponse` from the client source: the response envelope. -/
structure IRISResponse where
  status : String
  data : String
  msg : String
deriving DecidableEq

/-- An HTTP response as the client's `do` method observes it: the status
code, whether reading the body fails, and what unmarshaling the body
yields (`none` when it is not valid JSON for the envelope). -/
structure HTTPResponse where
  statusCode : Nat
  readFault : Bool
  parsed : Option IRISResponse
deriving DecidableEq

/-- Outcome of `httpClient.Do`: a transport failure or a response. -/
inductive TransportResult where
  | fail (e : String)
  | ok (resp : HTTPResponse)
deriving DecidableEq

/-- The `do` method of the IRIS client: transport failure, body-read
failure, status code ≥ 400, unmarshal failure and a non-"success"
envelope are errors, in that order of checking. -/
def clientDo (tr : TransportResult) : Except String IRISResponse :=
  match tr with
  | TransportResult.fail e => Except.error ("http: " ++ e)
  | TransportResult.ok resp =>
      if resp.readFault then Except.error "read response"
      else if 400 ≤ resp.statusCode then Except.error "iris api returned error status"
      else
        match resp.parsed with
        | none => Except.error "unmarshal response"
        | some r =>
            if r.status = "success" then Except.ok r
            else Except.error ("iris api error: " ++ r.msg)

/-- Whether an `Except` is a success. -/
def exceptIsOk {ε α : Type} : Except ε α → Bool
  | Except.ok _ => true
  | Except.error _ => false

/-- The spec's error condition for a remote call, read literally: the
transport fails, the body cannot be read or parsed, the HTTP status is
not 2xx, or the envelope status is not "success". -/
def claimedError (tr : TransportResult) : Bool :=
  match tr with
  | TransportResult.fail _ => true
  | TransportResult.ok resp =>
      resp.readFault ||
      !(decide (200 ≤ resp.statusCode) && decide (resp.statusCode ≤ 299)) ||
      (match resp.parsed with
       | none => true
       | some r => r.status != "success")

/-- The client's actual error condition: as `claimedError` but with
"status ≥ 400" in place of "status not 2xx". -/
def actualError (tr : TransportResult) : Bool :=
  match tr with
  | TransportResult.fail _ => true
  | TransportResult.ok resp =>
      resp.readFault ||
      decide (400 ≤ resp.statusCode) ||
      (match resp.parsed with
       | none => true
       | some r => r.status != "success")

/-- A remote oracle on which every call succeeds; creates answer case ID 7. -/
def oOk : IRISOracle :=
  ⟨fun _ => Except.ok 7, fun _ _ => Except.ok (), fun _ => Except.ok ()⟩

/-- A remote oracle on which every call fails. -/
def oFail : IRISOracle :=
  ⟨fun _ => Except.error "remote down", fun _ _ => Except.error "remote down",
   fun _ => Except.error "remote down"⟩

/-- A database oracle with no I/O faults. -/
def dboOk : DBOracle := ⟨fun _ => false, fun _ _ => false, fun _ => false⟩

/-- The README's example configuration, resolved action "update". -/
def cfgEx : AlertConfig :=
  ⟨"alertmanager", 1, 0, 2, 6, "update", 4,
   [("critical", 6), ("high", 5), ("warning", 4), ("info", 3)]⟩

/-- The example configuration with resolved action "delete". -/
def cfgDel : AlertConfig := { cfgEx with resolvedAction := "delete" }

/-- The example configuration with an empty resolved action string. -/
def cfgOther : AlertConfig := { cfgEx with resolvedAction := "" }

/-- A firing alert with fingerprint "abc123". -/
def aFiring : Alert :=
  ⟨"firing", [("alertname", "DiskFull"), ("severity", "critical")], [],
   "2024-01-01T00:00:00Z", "", "http://prom/graph", "abc123"⟩

/-- The same alert, resolved. -/
def aResolved : Alert := { aFiring with status := "resolved" }

/-- The spec's description example: labels alertname X and severity
warning, empty annotations, every other field empty. -/
def aDesc : Alert :=
  ⟨"firing", [("alertname", "X"), ("severity", "warning")], [], "", "", "", ""⟩

/-- A 301 response whose body parses to a "success" envelope. -/
def respRedirect : TransportResult :=
  TransportResult.ok ⟨301, false, some ⟨"success", "", ""⟩⟩

theorem getAlertID_setAssoc_self (idx : Index) (fp : String) (id : Int) :
    getAlertID (setAssoc idx fp id) fp = some id := by
  induction idx with
  | nil => simp [getAlertID, setAssoc, lookupAssoc]
  | cons p rest ih =>
      obtain ⟨k, v⟩ := p
      by_cases h : k = fp
      · simp [getAlertID, setAssoc, lookupAssoc, h]
      · simpa [getAlertID, setAssoc, lookupAssoc, h] using ih

theorem getAlertID_setAssoc_ne (idx : Index) (fp fp₂ : String) (id : Int)
    (h : fp₂ ≠ fp) : getAlertID (setAssoc idx fp id) fp₂ = getAlertID idx fp₂ := by
  have h₂ : ¬fp = fp₂ := Ne.symm h
  induction idx with
  | nil => simp [getAlertID, setAssoc, lookupAssoc, h₂]
  | cons p rest ih =>
      obtain ⟨k, v⟩ := p
      by_cases hk : k = fp
      · subst hk
        simp [getAlertID, setAssoc, lookupAssoc, h₂]
      · by_cases hk₂ : k = fp₂
        · simp [getAlertID, setAssoc, lookupAssoc, hk, hk₂, h]
        · simpa [getAlertID, setAssoc, lookupAssoc, hk, hk₂] using ih

theorem getAlertID_delAssoc_self (idx : Index) (fp : String) :
    getAlertID (delAssoc idx fp) fp = none := by
  induction idx with
  | nil => simp [getAlertID, delAssoc, lookupAssoc]
  | cons p rest ih =>
      obtain ⟨k, v⟩ := p
      by_cases h : k = fp
      · simpa [getAlertID, delAssoc, lookupAssoc, List.filter_cons, h] using ih
      · simpa [getAlertID, delAssoc, lookupAssoc, List.filter_cons, h] using ih

theorem getAlertID_delAssoc_ne (idx : Index) (fp fp₂ : String)
    (h : fp₂ ≠ fp) : getAlertID (delAssoc idx fp) fp₂ = getAlertID idx fp₂ := by
  induction idx with
  | nil => simp [getAlertID, delAssoc, lookupAssoc]
  | cons p rest ih =>
      obtain ⟨k, v⟩ := p
      by_cases hk : k = fp
      · subst hk
        simpa [getAlertID, delAssoc, lookupAssoc, List.filter_cons, h, Ne.symm h] using ih
      · by_cases hk₂ : k = fp₂
        · simp [getAlertID, delAssoc, lookupAssoc, List.filter_cons, hk, hk₂, h]
        · simpa [getAlertID, delAssoc, lookupAssoc, List.filter_cons, hk, hk₂] using ih

theorem processAlert_shape (o : IRISOracle) (dbo : DBOracle) (cfg : AlertConfig)
    (idx : Index) (alert : Alert) :
    (processAlert o dbo cfg idx alert).index = idx ∨
    (getAlertID idx alert.fingerprint = none ∧
      ∃ id, (processAlert o dbo cfg idx alert).index = setAssoc idx alert.fingerprint id ∧
        (processAlert o dbo cfg idx alert).err = none) ∨
    ((processAlert o dbo cfg idx alert).index = delAssoc idx alert.fingerprint ∧
      (processAlert o dbo cfg idx alert).err = none) := by
  by_cases hl : dbo.lookupFault alert.fingerprint = true
  · left
    simp [processAlert, hl]
  · by_cases hf : alert.status = "firing"
    · cases hg : getAlertID idx alert.fingerprint with
      | some id =>
          left
          cases hu : o.updateResult id (mkUpdateRequest cfg alert) <;>
            simp [processAlert, hl, hf, hg, updateAlert, hu]
      | none =>
          cases hc : o.createResult (mkCreateRequest cfg alert) with
          | error e =>
              left
              simp [processAlert, hl, hf, hg, createAlert, hc]
          | ok id =>
              by_cases hs : dbo.storeFault alert.fingerprint id = true
              · left
                simp [processAlert, hl, hf, hg, createAlert, hc, hs]
              · right; left
                refine ⟨rfl, id, ?_, ?_⟩ <;>
                  simp [processAlert, hl, hf, hg, createAlert, hc, hs]
    · by_cases hr : alert.status = "resolved"
      · cases hg : getAlertID idx alert.fingerprint with
        | none =>
            left
            simp [processAlert, hl, hf, hr, hg]
        | some id =>
            by_cases hd : cfg.resolvedAction = "delete"
            · cases hdel : o.deleteResult id with
              | error e =>
                  left
                  simp [processAlert, hl, hf, hr, hg, resolveAlert, hd, hdel]
              | ok u =>
                  by_cases hdf : dbo.deleteFault alert.fingerprint = true
                  · left
                    simp [processAlert, hl, hf, hr, hg, resolveAlert, hd, hdel, hdf]
                  · right; right
                    constructor <;>
                      simp [processAlert, hl, hf, hr, hg, resolveAlert, hd, hdel, hdf]
            · cases hu : o.updateResult id (mkResolveRequest cfg) with
              | error e =>
                  left
                  simp [processAlert, hl, hf, hr, hg, resolveAlert, hd, hu]
              | ok u =>
                  by_cases hdf : dbo.deleteFault alert.fingerprint = true
                  · left
                    simp [processAlert, hl, hf, hr, hg, resolveAlert, hd, hu, hdf]
                  · right; right
                    constructor <;>
                      simp [processAlert, hl, hf, hr, hg, resolveAlert, hd, hu, hdf]
      · left
        simp [processAlert, hl, hf, hr]

theorem foldl_descAdd (l : List (String × String)) (acc : List String) :
    List.foldl (fun lines p => descAdd lines p.1 p.2) acc l =
      acc ++ (l.filter (fun p => p.2 != "")).map (fun p => p.1 ++ ": " ++ p.2) := by
  induction l generalizing acc with
  | nil => simp
  | cons p rest ih =>
      rw [List.foldl_cons, ih]
      by_cases h : p.2 = ""
      · simp [descAdd, h, List.filter_cons]
      · simp [descAdd, h, List.filter_cons]

theorem alertDescription_eq_spec (a : Alert) : alertDescription a = descriptionSpec a := by
  have h : alertDescription a =
      String.intercalate "\n"
        (List.foldl (fun lines p => descAdd lines p.1 p.2) [] (descFields a)) := rfl
  rw [h, foldl_descAdd]
  simp [descriptionSpec]

/-- C1: a "firing" alert whose fingerprint has no index entry issues
exactly one remote create call (and no update or delete call), and on
success of that call the index gains exactly one entry mapping the
fingerprint to the case ID the create call returned. -/
theorem create_on_first_firing (o : IRISOracle) (dbo : DBOracle) (cfg : AlertConfig)
    (idx : Index) (alert : Alert) (id : Int)
    (hst : alert.status = "firing")
    (hun : getAlertID idx alert.fingerprint = none)
    (hlf : dbo.lookupFault alert.fingerprint = false)
    (hok : o.createResult (mkCreateRequest cfg alert) = Except.ok id)
    (hsf : dbo.storeFault alert.fingerprint id = false) :
    (processAlert o dbo cfg idx alert).calls = [RemoteCall.create (mkCreateRequest cfg alert)] ∧
    (processAlert o dbo cfg idx alert).err = none ∧
    (processAlert o dbo cfg idx alert).index = setAssoc idx alert.fingerprint id ∧
    getAlertID (processAlert o dbo cfg idx alert).index alert.fingerprint = some id ∧
    ∀ fp, fp ≠ alert.fingerprint →
      getAlertID (processAlert o dbo cfg idx alert).index fp = getAlertID idx fp := by
  have hp : processAlert o dbo cfg idx alert =
      ⟨[RemoteCall.create (mkCreateRequest cfg alert)],
        setAssoc idx alert.fingerprint id, none⟩ := by
    simp [processAlert, hlf, hst, hun, createAlert, hok, hsf]
  refine ⟨by simp [hp], by simp [hp], by simp [hp], ?_, ?_⟩
  · rw [hp]
    exact getAlertID_setAssoc_self idx alert.fingerprint id
  · intro fp hfp
    rw [hp]
    exact getAlertID_setAssoc_ne idx alert.fingerprint fp id hfp

theorem create_on_first_firing_witness :
    (processAlert oOk dboOk cfgEx [] aFiring).calls =
      [RemoteCall.create (mkCreateRequest cfgEx aFiring)] ∧
    (processAlert oOk dboOk cfgEx [] aFiring).err = none ∧
    getAlertID (processAlert oOk dboOk cfgEx [] aFiring).index aFiring.fingerprint = some 7 := by
  have h := create_on_first_firing oOk dboOk cfgEx [] aFiring 7 rfl rfl rfl rfl rfl
  exact ⟨h.1, h.2.1, h.2.2.2.1⟩

/-- C2: a "firing" alert whose fingerprint is tracked with case ID id
issues exactly one remote update call addressed to id (never a create)
and leaves its index entry unchanged; and in general no processing step
ever overwrites an existing index entry with a different case ID. -/
theorem update_on_tracked_firing (o : IRISOracle) (dbo : DBOracle) (cfg : AlertConfig)
    (idx : Index) (alert : Alert) (id : Int)
    (hst : alert.status = "firing")
    (htr : getAlertID idx alert.fingerprint = some id)
    (hlf : dbo.lookupFault alert.fingerprint = false) :
    (processAlert o dbo cfg idx alert).calls =
      [RemoteCall.update id (mkUpdateRequest cfg alert)] ∧
    (processAlert o dbo cfg idx alert).index = idx ∧
    getAlertID (processAlert o dbo cfg idx alert).index alert.fingerprint = some id ∧
    ∀ (o₂ : IRISOracle) (dbo₂ : DBOracle) (cfg₂ : AlertConfig) (idx₂ : Index)
      (a₂ : Alert) (fp : String) (v v₂ : Int),
      getAlertID idx₂ fp = some v →
      getAlertID (processAlert o₂ dbo₂ cfg₂ idx₂ a₂).index fp = some v₂ → v₂ = v := by
  have hp : (processAlert o dbo cfg idx alert).calls =
        [RemoteCall.update id (mkUpdateRequest cfg alert)] ∧
      (processAlert o dbo cfg idx alert).index = idx := by
    cases hu : o.updateResult id (mkUpdateRequest cfg alert) <;>
      constructor <;> simp [processAlert, hlf, hst, htr, updateAlert, hu]
  refine ⟨hp.1, hp.2, by rw [hp.2]; exact htr, ?_⟩
  intro o₂ dbo₂ cfg₂ idx₂ a₂ fp v v₂ hv hv₂
  rcases processAlert_shape o₂ dbo₂ cfg₂ idx₂ a₂ with h1 | ⟨hg, id₂, h2, _⟩ | ⟨h3, _⟩
  · rw [h1, hv] at hv₂
    exact (Option.some.injEq _ _ ▸ hv₂).symm
  · by_cases hfp : fp = a₂.fingerprint
    · rw [hfp, hg] at hv
      exact absurd hv (by simp)
    · rw [h2, getAlertID_setAssoc_ne idx₂ a₂.fingerprint fp id₂ hfp, hv] at hv₂
      exact (Option.some.injEq _ _ ▸ hv₂).symm
  · by_cases hfp : fp = a₂.fingerprint
    · rw [h3, hfp, getAlertID_delAssoc_self idx₂ a₂.fingerprint] at hv₂
      exact absurd hv₂ (by simp)
    · rw [h3, getAlertID_delAssoc_ne idx₂ a₂.fingerprint fp hfp, hv] at hv₂
      exact (Option.some.injEq _ _ ▸ hv₂).symm

theorem update_on_tracked_firing_witness :
    (processAlert oOk dboOk cfgEx [("abc123", 7)] aFiring).calls =
      [RemoteCall.update 7 (mkUpdateRequest cfgEx aFiring)] ∧
    (processAlert oOk dboOk cfgEx [("abc123", 7)] aFiring).index = [("abc123", 7)] := by
  have h := update_on_tracked_firing oOk dboOk cfgEx [("abc123", 7)] aFiring 7 rfl rfl rfl
  exact ⟨h.1, h.2.1⟩

/-- C3: a "resolved" alert whose fingerprint is tracked with case ID id
has its index entry removed and issues exactly one remote call addressed
to id: a delete when the configured resolved action is "delete",
otherwise an update whose status field is the configured resolved status
code (assuming the lookup, the remote call and the index delete all
succeed). -/
theorem resolve_tracked (o : IRISOracle) (dbo : DBOracle) (cfg : AlertConfig)
    (idx : Index) (alert : Alert) (id : Int)
    (hst : alert.status = "resolved")
    (htr : getAlertID idx alert.fingerprint = some id)
    (hlf : dbo.lookupFault alert.fingerprint = false)
    (hdf : dbo.deleteFault alert.fingerprint = false)
    (hok : if cfg.resolvedAction = "delete" then o.deleteResult id = Except.ok ()
           else o.updateResult id (mkResolveRequest cfg) = Except.ok ()) :
    (processAlert o dbo cfg idx alert).calls =
      [if cfg.resolvedAction = "delete" then RemoteCall.delete id
       else RemoteCall.update id (mkResolveRequest cfg)] ∧
    (mkResolveRequest cfg).statusID = some cfg.statusIDResolved ∧
    (processAlert o dbo cfg idx alert).err = none ∧
    (processAlert o dbo cfg idx alert).index = delAssoc idx alert.fingerprint ∧
    getAlertID (processAlert o dbo cfg idx alert).index alert.fingerprint = none := by
  by_cases hd : cfg.resolvedAction = "delete"
  · rw [if_pos hd] at hok
    have hp : processAlert o dbo cfg idx alert =
        ⟨[RemoteCall.delete id], delAssoc idx alert.fingerprint, none⟩ := by
      simp [processAlert, hlf, hst, htr, resolveAlert, hd, hok, hdf]
    refine ⟨by simp [hp, hd], rfl, by simp [hp], by simp [hp], ?_⟩
    rw [hp]
    exact getAlertID_delAssoc_self idx alert.fingerprint
  · rw [if_neg hd] at hok
    have hp : processAlert o dbo cfg idx alert =
        ⟨[RemoteCall.update id (mkResolveRequest cfg)], delAssoc idx alert.fingerprint, none⟩ := by
      simp [processAlert, hlf, hst, htr, resolveAlert, hd, hok, hdf]
    refine ⟨by simp [hp, hd], rfl, by simp [hp], by simp [hp], ?_⟩
    rw [hp]
    exact getAlertID_delAssoc_self idx alert.fingerprint

theorem resolve_tracked_witness :
    (processAlert oOk dboOk cfgDel [("abc123", 7)] aResolved).calls = [RemoteCall.delete 7] ∧
    (processAlert oOk dboOk cfgDel [("abc123", 7)] aResolved).err = none ∧
    getAlertID (processAlert oOk dboOk cfgDel [("abc123", 7)] aResolved).index
      aResolved.fingerprint = none := by
  have h := resolve_tracked oOk dboOk cfgDel [("abc123", 7)] aResolved 7 rfl rfl rfl rfl
    (by simp [cfgDel, cfgEx, oOk])
  refine ⟨?_, h.2.2.1, h.2.2.2.2⟩
  have hc := h.1
  simpa [cfgDel, cfgEx] using hc

/-- C4: a "resolved" alert whose fingerprint has no index entry is a
no-op (no remote call, no index mutation, no error); consequently,
replaying the identical "resolved" notification after one that completed
without error is itself a no-op. -/
theorem resolve_untracked_noop (o : IRISOracle) (dbo : DBOracle) (cfg : AlertConfig)
    (alert : Alert)
    (hst : alert.status = "resolved")
    (hlf : dbo.lookupFault alert.fingerprint = false) :
    (∀ idx : Index, getAlertID idx alert.fingerprint = none →
      processAlert o dbo cfg idx alert = ⟨[], idx, none⟩) ∧
    (∀ idx : Index, (processAlert o dbo cfg idx alert).err = none →
      processAlert o dbo cfg (processAlert o dbo cfg idx alert).index alert =
        ⟨[], (processAlert o dbo cfg idx alert).index, none⟩) := by
  have hskip : ∀ idx : Index, getAlertID idx alert.fingerprint = none →
      processAlert o dbo cfg idx alert = ⟨[], idx, none⟩ := by
    intro idx hun
    simp [processAlert, hlf, hst, hun]
  refine ⟨hskip, ?_⟩
  intro idx herr
  have huntracked : getAlertID (processAlert o dbo cfg idx alert).index alert.fingerprint
      = none := by
    cases hg : getAlertID idx alert.fingerprint with
    | none =>
        rw [hskip idx hg]
        exact hg
    | some id =>
        have hp : processAlert o dbo cfg idx alert = resolveAlert o dbo cfg idx id alert := by
          simp [processAlert, hlf, hst, hg]
        rw [hp] at herr ⊢
        by_cases hd : cfg.resolvedAction = "delete"
        · cases hdel : o.deleteResult id with
          | error e => simp [resolveAlert, hd, hdel] at herr
          | ok u =>
              by_cases hdf : dbo.deleteFault alert.fingerprint = true
              · simp [resolveAlert, hd, hdel, hdf] at herr
              · rw [show (resolveAlert o dbo cfg idx id alert).index =
                    delAssoc idx alert.fingerprint by simp [resolveAlert, hd, hdel, hdf]]
                exact getAlertID_delAssoc_self idx alert.fingerprint
        · cases hu : o.updateResult id (mkResolveRequest cfg) with
          | error e => simp [resolveAlert, hd, hu] at herr
          | ok u =>
              by_cases hdf : dbo.deleteFault alert.fingerprint = true
              · simp [resolveAlert, hd, hu, hdf] at herr
              · rw [show (resolveAlert o dbo cfg idx id alert).index =
                    delAssoc idx alert.fingerprint by simp [resolveAlert, hd, hu, hdf]]
                exact getAlertID_delAssoc_self idx alert.fingerprint
  exact hskip _ huntracked

theorem resolve_untracked_noop_witness :
    processAlert oOk dboOk cfgEx [] aResolved = ⟨[], [], none⟩ ∧
    processAlert oOk dboOk cfgEx
        (processAlert oOk dboOk cfgEx [("abc123", 7)] aResolved).index aResolved =
      ⟨[], (processAlert oOk dboOk cfgEx [("abc123", 7)] aResolved).index, none⟩ := by
  have h := resolve_untracked_noop oOk dboOk cfgEx aResolved rfl rfl
  exact ⟨h.1 [] rfl, h.2 [("abc123", 7)] rfl⟩

/-- C5: a reconciliation step mutates the index only after its remote
call has completed successfully: whenever `processAlert` returns an
error the index is exactly as it was, and whenever the index changed the
step returned no error. -/
theorem remote_before_index (o : IRISOracle) (dbo : DBOracle) (cfg : AlertConfig)
    (idx : Index) (alert : Alert) :
    ((processAlert o dbo cfg idx alert).err.isSome = true →
      (processAlert o dbo cfg idx alert).index = idx) ∧
    ((processAlert o dbo cfg idx alert).index ≠ idx →
      (processAlert o dbo cfg idx alert).err = none) := by
  have key : (processAlert o dbo cfg idx alert).index = idx ∨
      (processAlert o dbo cfg idx alert).err = none := by
    rcases processAlert_shape o dbo cfg idx alert with h1 | ⟨_, _, _, herr⟩ | ⟨_, herr⟩
    · exact Or.inl h1
    · exact Or.inr herr
    · exact Or.inr herr
  constructor
  · intro hsome
    rcases key with h | h
    · exact h
    · rw [h] at hsome
      exact absurd hsome (by simp)
  · intro hne
    rcases key with h | h
    · exact absurd h hne
    · exact h

/-- C10: resolving a tracked alert under any configured resolved action
other than "delete" — the empty string and unrecognized values included —
behaves exactly like "update": it issues one remote update call setting
the status to the configured resolved status code, never a delete, and on
success removes the index entry. -/
theorem resolve_action_default_update (o : IRISOracle) (dbo : DBOracle) (cfg : AlertConfig)
    (idx : Index) (alert : Alert) (id : Int)
    (hact : cfg.resolvedAction ≠ "delete")
    (hst : alert.status = "resolved")
    (htr : getAlertID idx alert.fingerprint = some id)
    (hlf : dbo.lookupFault alert.fingerprint = false) :
    (processAlert o dbo cfg idx alert).calls =
      [RemoteCall.update id (mkResolveRequest cfg)] ∧
    (mkResolveRequest cfg).statusID = some cfg.statusIDResolved ∧
    (o.updateResult id (mkResolveRequest cfg) = Except.ok () →
      dbo.deleteFault alert.fingerprint = false →
      (processAlert o dbo cfg idx alert).err = none ∧
      (processAlert o dbo cfg idx alert).index = delAssoc idx alert.fingerprint ∧
      getAlertID (processAlert o dbo cfg idx alert).index alert.fingerprint = none) := by
  refine ⟨?_, rfl, ?_⟩
  · cases hu : o.updateResult id (mkResolveRequest cfg) <;>
      by_cases hdf : dbo.deleteFault alert.fingerprint = true <;>
        simp [processAlert, hlf, hst, htr, resolveAlert, hact, hu, hdf]
  · intro hok hdf
    have hp : processAlert o dbo cfg idx alert =
        ⟨[RemoteCall.update id (mkResolveRequest cfg)], delAssoc idx alert.fingerprint, none⟩ := by
      simp [processAlert, hlf, hst, htr, resolveAlert, hact, hok, hdf]
    refine ⟨by simp [hp], by simp [hp], ?_⟩
    rw [hp]
    exact getAlertID_delAssoc_self idx alert.fingerprint

theorem resolve_action_default_update_witness :
    (processAlert oOk dboOk cfgOther [("abc123", 7)] aResolved).calls =
      [RemoteCall.update 7 (mkResolveRequest cfgOther)] ∧
    (processAlert oOk dboOk cfgOther [("abc123", 7)] aResolved).err = none ∧
    getAlertID (processAlert oOk dboOk cfgOther [("abc123", 7)] aResolved).index
      aResolved.fingerprint = none := by
  have h := resolve_action_default_update oOk dboOk cfgOther [("abc123", 7)] aResolved 7
    (by simp [cfgOther, cfgEx]) rfl rfl rfl
  exact ⟨h.1, (h.2.2 rfl rfl).1, (h.2.2 rfl rfl).2.2⟩

/-- C6 counterexample: a 301 response whose body is a "success" envelope.
The claim's error condition (non-2xx is an error) holds of it, yet the
client's `do` succeeds, because the code only treats status ≥ 400 as an
error. -/
theorem client_error_iff_counterexample :
    claimedError respRedirect = true ∧ exceptIsOk (clientDo respRedirect) = true := by
  decide

/-- C6 (amended): a remote call errors iff the transport fails, reading
the body fails, the HTTP status is ≥ 400 (not: non-2xx), the body fails
to parse, or the parsed envelope's status is not "success". -/
theorem client_error_iff (tr : TransportResult) :
    exceptIsOk (clientDo tr) = false ↔ actualError tr = true := by
  cases tr with
  | fail e => simp [clientDo, actualError, exceptIsOk]
  | ok resp =>
      obtain ⟨sc, rf, p⟩ := resp
      cases rf
      · by_cases h4 : 400 ≤ sc
        · simp [clientDo, actualError, exceptIsOk, h4]
        · cases p with
          | none => simp [clientDo, actualError, exceptIsOk, h4]
          | some r =>
              by_cases hs : r.status = "success"
              · simp [clientDo, actualError, exceptIsOk, h4, hs]
              · simp [clientDo, actualError, exceptIsOk, h4, hs]
      · simp [clientDo, actualError, exceptIsOk]

/-- C7: the description is one "label: value" line per recognized field
whose value is non-empty, in the fixed order of `descFields`, joined by
newlines with no trailing blank line; on labels alertname X and severity
warning with everything else empty it is exactly
"Alert: X\nSeverity: warning". -/
theorem description_lines :
    (∀ a : Alert, alertDescription a = descriptionSpec a) ∧
    alertDescription aDesc = "Alert: X\nSeverity: warning" := by
  refine ⟨alertDescription_eq_spec, ?_⟩
  rfl

/-- C8: the severity mapping is total by construction and returns the
severity label's entry in the configured table when both exist, and the
configured default in every other case. -/
theorem severity_mapping (cfg : AlertConfig) (alert : Alert) :
    (∀ s c, lookupAssoc alert.labels "severity" = some s →
      lookupAssoc cfg.severityMap s = some c → severityID cfg alert = c) ∧
    (lookupAssoc alert.labels "severity" = none →
      severityID cfg alert = cfg.defaultSeverityID) ∧
    (∀ s, lookupAssoc alert.labels "severity" = some s →
      lookupAssoc cfg.severityMap s = none →
      severityID cfg alert = cfg.defaultSeverityID) := by
  refine ⟨?_, ?_, ?_⟩
  · intro s c h1 h2
    simp [severityID, h1, h2]
  · intro h
    simp [severityID, h]
  · intro s h1 h2
    simp [severityID, h1, h2]

/-- C9: alerts of a decoded batch are processed in order and
independently — processing a batch `xs ++ ys` runs `ys` from the state
left by `xs` whatever errors `xs` produced, with calls and logged errors
concatenated — and the webhook handler answers 200 on every decoded
payload regardless of per-alert failures. -/
theorem batch_independent (o : IRISOracle) (dbo : DBOracle) (cfg : AlertConfig)
    (idx : Index) :
    (∀ xs ys : List Alert,
      handleAlerts o dbo cfg idx (xs ++ ys) =
        ⟨(handleAlerts o dbo cfg idx xs).calls ++
           (handleAlerts o dbo cfg (handleAlerts o dbo cfg idx xs).index ys).calls,
         (handleAlerts o dbo cfg (handleAlerts o dbo cfg idx xs).index ys).index,
         (handleAlerts o dbo cfg idx xs).errors ++
           (handleAlerts o dbo cfg (handleAlerts o dbo cfg idx xs).index ys).errors⟩) ∧
    (∀ p : AlertmanagerPayload,
      (handleWebhook o dbo cfg idx "POST" (some p)).1 = 200) := by
  constructor
  · intro xs ys
    induction xs generalizing idx with
    | nil => rfl
    | cons a rest ih =>
        simp only [List.cons_append, handleAlerts, List.append_eq]
        rw [ih]
        simp [List.append_assoc]
  · intro p
    rfl

end Alertiris
